import Mathlib

/-!
Shallow embedding of the EternalSentinel vault contract
(src/contract/src/EternalSentinel.ts).

Amounts and addresses are `u256` values, modelled as `Nat` with the bound
`U256_LIMIT` made explicit wherever the source uses overflow-checked
`SafeMath` operations.  Block heights are host `u64` values.  Per-vault
storage maps (`StoredMapU256`, default value zero for absent keys) are
modelled as total functions `Nat → Nat`.  A `Revert` in the source aborts
the call and rolls back every write, which the embedding captures by
returning `Except.error`: the caller keeps the pre-call state.
-/

namespace EternalSentinel

/-- Width bound of the host `u256` integer type. -/
def U256_LIMIT : Nat := 2 ^ 256

/-- Width bound of the host `u64` integer type. -/
def U64_LIMIT : Nat := 2 ^ 64

/-- TIER_1_BLOCKS constant: ~26,280 blocks ≈ 6 months. -/
def TIER_1_BLOCKS : Nat := 26280

/-- TIER_2_BLOCKS constant: ~52,560 blocks ≈ 12 months. -/
def TIER_2_BLOCKS : Nat := 52560

/-- TIER_1_BPS constant: tier-1 share in basis points (10%). -/
def TIER_1_BPS : Nat := 1000

/-- BPS_DENOMINATOR constant: 10,000 basis points = 100%. -/
def BPS_DENOMINATOR : Nat := 10000

/-- Status code 0: no vault. -/
def STATUS_UNINITIALIZED : Nat := 0

/-- Status code 1: vault alive. -/
def STATUS_ACTIVE : Nat := 1

/-- Status code 2: 6-month release done. -/
def STATUS_TIER1_RELEASED : Nat := 2

/-- Status code 3: fully released. -/
def STATUS_FINALIZED : Nat := 3

/-- DEFAULT_FEE constant: 10,000 sats. -/
def DEFAULT_FEE : Nat := 10000

/-- Error kinds of the contract, one per `Revert` site (grouping the
`SafeMath` underflow/overflow/div-zero reverts as `ArithmeticOverflow`). -/
inductive Err where
  | NotOwner
  | InvalidState
  | InvalidBeneficiary
  | InvalidAmount
  | TimeoutNotReached
  | IndexOutOfBounds
  | ArithmeticOverflow
  deriving DecidableEq, Repr

/-- SafeMath.add on u256: reverts when the mathematical sum would wrap. -/
def safeAdd (a b : Nat) : Except Err Nat :=
  if a + b < U256_LIMIT then .ok (a + b) else .error .ArithmeticOverflow

/-- SafeMath.mul on u256: reverts when the mathematical product would wrap. -/
def safeMul (a b : Nat) : Except Err Nat :=
  if a * b < U256_LIMIT then .ok (a * b) else .error .ArithmeticOverflow

/-- SafeMath.sub on u256: reverts on underflow. -/
def safeSub (a b : Nat) : Except Err Nat :=
  if b ≤ a then .ok (a - b) else .error .ArithmeticOverflow

/-- SafeMath.div on u256: reverts on division by zero. -/
def safeDiv (a b : Nat) : Except Err Nat :=
  if b = 0 then .error .ArithmeticOverflow else .ok (a / b)

/-- Low 64-bit limb of a stored u256 (`.lo1` in as-bignum). -/
def lo1 (x : Nat) : Nat := x % U64_LIMIT

/-- Contract storage: the per-vault `StoredMapU256` maps (default 0 for
absent keys), the owner index, and the global slots. -/
structure ContractState where
  vaultOwner : Nat → Nat
  vaultBeneficiary : Nat → Nat
  vaultStatus : Nat → Nat
  vaultHeartbeat : Nat → Nat
  vaultDeposited : Nat → Nat
  vaultTier1Amt : Nat → Nat
  vaultTier2Amt : Nat → Nat
  ownerVaults : Nat → Nat → Nat
  ownerVaultCount : Nat → Nat
  nextVaultId : Nat
  feeAmount : Nat
  feeRecipient : Nat
  totalVaults : Nat

/-- Host execution context: `Blockchain.tx.sender` (already converted to a
u256 by `addressToU256`, which is injective on 32-byte addresses) and
`Blockchain.block.number` (a host u64). -/
structure Ctx where
  sender : Nat
  blockNumber : Nat

/-- onDeployment: vault ids start at 1, default fee, deployer is fee
recipient, empty storage. -/
def onDeployment (ctx : Ctx) : ContractState :=
  { vaultOwner := fun _ => 0
    vaultBeneficiary := fun _ => 0
    vaultStatus := fun _ => 0
    vaultHeartbeat := fun _ => 0
    vaultDeposited := fun _ => 0
    vaultTier1Amt := fun _ => 0
    vaultTier2Amt := fun _ => 0
    ownerVaults := fun _ _ => 0
    ownerVaultCount := fun _ => 0
    nextVaultId := 1
    feeAmount := DEFAULT_FEE
    feeRecipient := ctx.sender
    totalVaults := 0 }

/-- requireVaultOwner: revert with `NotOwner` unless the stored owner equals
the transaction sender. -/
def requireVaultOwner (s : ContractState) (ctx : Ctx) (vaultId : Nat) : Except Err Unit :=
  if s.vaultOwner vaultId ≠ ctx.sender then .error .NotOwner else .ok ()

/-- requireVaultStatus: revert with `InvalidState` unless the stored status
equals the expected one. -/
def requireVaultStatus (s : ContractState) (vaultId expected : Nat) : Except Err Unit :=
  if s.vaultStatus vaultId ≠ expected then .error .InvalidState else .ok ()

/-- elapsedSince: blocks elapsed since the last heartbeat, clamped to 0 when
the current height is below the checkpoint. -/
def elapsedSince (ctx : Ctx) (lastBeat : Nat) : Nat :=
  if ctx.blockNumber ≥ lastBeat then ctx.blockNumber - lastBeat else 0

/-- recalcTiers: recompute the tier split from a new total,
`t1 = newTotal * TIER_1_BPS / BPS_DENOMINATOR` (SafeMath mul then div),
`t2 = newTotal - t1` (SafeMath sub), and store both. -/
def recalcTiers (s : ContractState) (vaultId newTotal : Nat) : Except Err ContractState :=
  match safeMul newTotal TIER_1_BPS with
  | .error e => .error e
  | .ok p =>
    match safeDiv p BPS_DENOMINATOR with
    | .error e => .error e
    | .ok t1 =>
      match safeSub newTotal t1 with
      | .error e => .error e
      | .ok t2 =>
        .ok { s with
          vaultTier1Amt := Function.update s.vaultTier1Amt vaultId t1
          vaultTier2Amt := Function.update s.vaultTier2Amt vaultId t2 }

/-- createVault: validate the beneficiary, allocate the next vault id,
initialise the vault record at the current block, index it under the owner
and bump the global counter.  Returns the allocated vault id. -/
def createVault (s : ContractState) (ctx : Ctx) (beneficiary : Nat) :
    Except Err (Nat × ContractState) :=
  if beneficiary = 0 then .error .InvalidBeneficiary
  else if beneficiary = ctx.sender then .error .InvalidBeneficiary
  else
    let vaultId := s.nextVaultId
    match safeAdd vaultId 1 with
    | .error e => .error e
    | .ok nextId =>
      let count := s.ownerVaultCount ctx.sender
      match safeAdd count 1 with
      | .error e => .error e
      | .ok newCount =>
        match safeAdd s.totalVaults 1 with
        | .error e => .error e
        | .ok newTotalVaults =>
          .ok (vaultId,
            { s with
              nextVaultId := nextId
              vaultOwner := Function.update s.vaultOwner vaultId ctx.sender
              vaultBeneficiary := Function.update s.vaultBeneficiary vaultId beneficiary
              vaultStatus := Function.update s.vaultStatus vaultId STATUS_ACTIVE
              vaultHeartbeat := Function.update s.vaultHeartbeat vaultId ctx.blockNumber
              vaultDeposited := Function.update s.vaultDeposited vaultId 0
              vaultTier1Amt := Function.update s.vaultTier1Amt vaultId 0
              vaultTier2Amt := Function.update s.vaultTier2Amt vaultId 0
              ownerVaults := Function.update s.ownerVaults ctx.sender
                (Function.update (s.ownerVaults ctx.sender) count vaultId)
              ownerVaultCount := Function.update s.ownerVaultCount ctx.sender newCount
              totalVaults := newTotalVaults })

/-- checkIn: owner-only heartbeat reset while `Active`; stores the current
block height as the new heartbeat. -/
def checkIn (s : ContractState) (ctx : Ctx) (vaultId : Nat) :
    Except Err (Bool × ContractState) :=
  match requireVaultOwner s ctx vaultId with
  | .error e => .error e
  | .ok _ =>
    match requireVaultStatus s vaultId STATUS_ACTIVE with
    | .error e => .error e
    | .ok _ =>
      .ok (true, { s with
        vaultHeartbeat := Function.update s.vaultHeartbeat vaultId ctx.blockNumber })

/-- deposit: owner-only while `Active`, amount must be positive; adds to the
cumulative total (SafeMath add) and recomputes the tier split. -/
def deposit (s : ContractState) (ctx : Ctx) (vaultId amount : Nat) :
    Except Err (Bool × ContractState) :=
  match requireVaultOwner s ctx vaultId with
  | .error e => .error e
  | .ok _ =>
    match requireVaultStatus s vaultId STATUS_ACTIVE with
    | .error e => .error e
    | .ok _ =>
      if amount = 0 then .error .InvalidAmount
      else
        match safeAdd (s.vaultDeposited vaultId) amount with
        | .error e => .error e
        | .ok newTotal =>
          let s1 := { s with
            vaultDeposited := Function.update s.vaultDeposited vaultId newTotal }
          match recalcTiers s1 vaultId newTotal with
          | .error e => .error e
          | .ok s2 => .ok (true, s2)

/-- setBeneficiary: owner-only while `Active`; the new beneficiary must be
nonzero and differ from the stored owner. -/
def setBeneficiary (s : ContractState) (ctx : Ctx) (vaultId newBeneficiary : Nat) :
    Except Err (Bool × ContractState) :=
  match requireVaultOwner s ctx vaultId with
  | .error e => .error e
  | .ok _ =>
    match requireVaultStatus s vaultId STATUS_ACTIVE with
    | .error e => .error e
    | .ok _ =>
      if newBeneficiary = 0 then .error .InvalidBeneficiary
      else if newBeneficiary = s.vaultOwner vaultId then .error .InvalidBeneficiary
      else
        .ok (true, { s with
          vaultBeneficiary := Function.update s.vaultBeneficiary vaultId newBeneficiary })

/-- triggerTier1: anyone may call; requires `Active` status and at least
`TIER_1_BLOCKS` elapsed since the stored heartbeat (low 64-bit limb);
advances the status to `Tier1Released` and returns the stored tier-1
amount. -/
def triggerTier1 (s : ContractState) (ctx : Ctx) (vaultId : Nat) :
    Except Err (Nat × ContractState) :=
  match requireVaultStatus s vaultId STATUS_ACTIVE with
  | .error e => .error e
  | .ok _ =>
    let lastBeat := lo1 (s.vaultHeartbeat vaultId)
    let elapsed := elapsedSince ctx lastBeat
    if elapsed < TIER_1_BLOCKS then .error .TimeoutNotReached
    else
      let s1 := { s with
        vaultStatus := Function.update s.vaultStatus vaultId STATUS_TIER1_RELEASED }
      .ok (s1.vaultTier1Amt vaultId, s1)

/-- triggerTier2: anyone may call; requires `Tier1Released` status and at
least `TIER_2_BLOCKS` elapsed since the same stored heartbeat; advances the
status to `Finalized` and returns the stored tier-2 amount. -/
def triggerTier2 (s : ContractState) (ctx : Ctx) (vaultId : Nat) :
    Except Err (Nat × ContractState) :=
  match requireVaultStatus s vaultId STATUS_TIER1_RELEASED with
  | .error e => .error e
  | .ok _ =>
    let lastBeat := lo1 (s.vaultHeartbeat vaultId)
    let elapsed := elapsedSince ctx lastBeat
    if elapsed < TIER_2_BLOCKS then .error .TimeoutNotReached
    else
      let s1 := { s with
        vaultStatus := Function.update s.vaultStatus vaultId STATUS_FINALIZED }
      .ok (s1.vaultTier2Amt vaultId, s1)

/-- Result bundle of the `getStatus` view. -/
structure StatusView where
  currentStatus : Nat
  lastHeartbeatBlock : Nat
  currentBlock : Nat
  totalDeposited : Nat
  tier1Amount : Nat
  tier2Amount : Nat
  tier1BlocksRemaining : Nat
  tier2BlocksRemaining : Nat
  owner : Nat
  deriving DecidableEq, Repr

/-- getStatus: total view (no revert path); reads all vault fields, computes
the clamped elapsed value from the heartbeat's low 64-bit limb and the two
countdowns. -/
def getStatus (s : ContractState) (ctx : Ctx) (vaultId : Nat) : StatusView :=
  let lastBeat := lo1 (s.vaultHeartbeat vaultId)
  let currentBlock := ctx.blockNumber
  let elapsed := if currentBlock ≥ lastBeat then currentBlock - lastBeat else 0
  let tier1Remaining := if elapsed < TIER_1_BLOCKS then TIER_1_BLOCKS - elapsed else 0
  let tier2Remaining := if elapsed < TIER_2_BLOCKS then TIER_2_BLOCKS - elapsed else 0
  { currentStatus := s.vaultStatus vaultId
    lastHeartbeatBlock := lastBeat
    currentBlock := currentBlock
    totalDeposited := s.vaultDeposited vaultId
    tier1Amount := s.vaultTier1Amt vaultId
    tier2Amount := s.vaultTier2Amt vaultId
    tier1BlocksRemaining := tier1Remaining
    tier2BlocksRemaining := tier2Remaining
    owner := s.vaultOwner vaultId }

/-- hasVault: a vault exists iff its stored status is not `Uninitialized`. -/
def hasVault (s : ContractState) (vaultId : Nat) : Bool :=
  s.vaultStatus vaultId ≠ STATUS_UNINITIALIZED

/-- The mutating entry points of the contract, with their calldata. -/
inductive Op where
  | createVault (beneficiary : Nat)
  | checkIn (vaultId : Nat)
  | deposit (vaultId amount : Nat)
  | setBeneficiary (vaultId newBeneficiary : Nat)
  | triggerTier1 (vaultId : Nat)
  | triggerTier2 (vaultId : Nat)
  deriving DecidableEq, Repr

/-- One mutating call, forgetting the ABI return value. -/
def step (s : ContractState) (ctx : Ctx) : Op → Except Err ContractState
  | .createVault b => (createVault s ctx b).map Prod.snd
  | .checkIn v => (checkIn s ctx v).map Prod.snd
  | .deposit v a => (deposit s ctx v a).map Prod.snd
  | .setBeneficiary v b => (setBeneficiary s ctx v b).map Prod.snd
  | .triggerTier1 v => (triggerTier1 s ctx v).map Prod.snd
  | .triggerTier2 v => (triggerTier2 s ctx v).map Prod.snd

/-- State after a call under the host's revert semantics: a `Revert` rolls
back every write, so an erroring call leaves the pre-call state. -/
def applyOp (s : ContractState) (ctx : Ctx) (op : Op) : ContractState :=
  match step s ctx op with
  | .ok s1 => s1
  | .error _ => s

/-- The vault id an operation addresses (`createVault` allocates its own). -/
def targetVault : Op → Option Nat
  | .createVault _ => none
  | .checkIn v => some v
  | .deposit v _ => some v
  | .setBeneficiary v _ => some v
  | .triggerTier1 v => some v
  | .triggerTier2 v => some v

/-- Scratch post-deployment state used to instantiate theorems. -/
def s0 : ContractState := onDeployment ⟨99, 0⟩

/-- The truncating 10% share never exceeds the total. -/
lemma bps_div_le (n : Nat) : n * TIER_1_BPS / BPS_DENOMINATOR ≤ n := by
  simp only [TIER_1_BPS, BPS_DENOMINATOR]
  omega

/-- Tier-1 share is monotone in the total. -/
lemma tier1_mono {m n : Nat} (h : m ≤ n) :
    m * TIER_1_BPS / BPS_DENOMINATOR ≤ n * TIER_1_BPS / BPS_DENOMINATOR := by
  simp only [TIER_1_BPS, BPS_DENOMINATOR]
  omega

/-- Tier-2 remainder is monotone in the total. -/
lemma tier2_mono {m n : Nat} (h : m ≤ n) :
    m - m * TIER_1_BPS / BPS_DENOMINATOR ≤ n - n * TIER_1_BPS / BPS_DENOMINATOR := by
  simp only [TIER_1_BPS, BPS_DENOMINATOR]
  omega

/-- When the SafeMath multiplication does not overflow, `recalcTiers`
computes exactly the floored 10% share and its remainder. -/
lemma recalcTiers_ok (s : ContractState) (vaultId n : Nat)
    (h : n * TIER_1_BPS < U256_LIMIT) :
    recalcTiers s vaultId n = .ok { s with
      vaultTier1Amt := Function.update s.vaultTier1Amt vaultId
        (n * TIER_1_BPS / BPS_DENOMINATOR)
      vaultTier2Amt := Function.update s.vaultTier2Amt vaultId
        (n - n * TIER_1_BPS / BPS_DENOMINATOR) } := by
  have hle : n * TIER_1_BPS / BPS_DENOMINATOR ≤ n := bps_div_le n
  have hden : BPS_DENOMINATOR ≠ 0 := by simp [BPS_DENOMINATOR]
  simp [recalcTiers, safeMul, safeDiv, safeSub, h, hle, hden]

/-- C1: on every deposit the recomputed split satisfies
`tier1 = floor(total * 1000 / 10000)` and `tier2 = total - tier1`, so
`tier1 + tier2 = total` exactly (whenever the defensive SafeMath
multiplication guard passes, which holds for every reachable total up to
the u256 width divided by 1000). -/
theorem tier_split_exact (s : ContractState) (vaultId n : Nat)
    (h : n * TIER_1_BPS < U256_LIMIT) :
    recalcTiers s vaultId n = .ok { s with
      vaultTier1Amt := Function.update s.vaultTier1Amt vaultId (n * 1000 / 10000)
      vaultTier2Amt := Function.update s.vaultTier2Amt vaultId (n - n * 1000 / 10000) } ∧
    n * 1000 / 10000 + (n - n * 1000 / 10000) = n := by
  constructor
  · exact recalcTiers_ok s vaultId n h
  · have := bps_div_le n
    simp only [TIER_1_BPS, BPS_DENOMINATOR] at this
    omega

/-- C1 witness: the split of a concrete total of 10 is tier1 = 1, tier2 = 9. -/
theorem tier_split_exact_witness :
    recalcTiers s0 1 10 = .ok { s0 with
      vaultTier1Amt := Function.update s0.vaultTier1Amt 1 (10 * 1000 / 10000)
      vaultTier2Amt := Function.update s0.vaultTier2Amt 1 (10 - 10 * 1000 / 10000) } ∧
    10 * 1000 / 10000 + (10 - 10 * 1000 / 10000) = 10 :=
  tier_split_exact s0 1 10 (by norm_num [TIER_1_BPS, U256_LIMIT])

/-- C10: `getStatus` is total (the view has no revert path) and on an id
whose storage slots are all still at their zero defaults it reports zero
status, heartbeat, deposits, tiers and owner, while the countdowns are
computed from the zero heartbeat: `TIER_1_BLOCKS - currentBlock` while
`currentBlock < TIER_1_BLOCKS` and 0 afterwards (likewise for tier 2). -/
theorem getStatus_uninitialized (s : ContractState) (ctx : Ctx) (vaultId : Nat)
    (hst : s.vaultStatus vaultId = 0) (hhb : s.vaultHeartbeat vaultId = 0)
    (hdep : s.vaultDeposited vaultId = 0) (ht1 : s.vaultTier1Amt vaultId = 0)
    (ht2 : s.vaultTier2Amt vaultId = 0) (how : s.vaultOwner vaultId = 0) :
    getStatus s ctx vaultId = {
      currentStatus := 0
      lastHeartbeatBlock := 0
      currentBlock := ctx.blockNumber
      totalDeposited := 0
      tier1Amount := 0
      tier2Amount := 0
      tier1BlocksRemaining :=
        if ctx.blockNumber < TIER_1_BLOCKS then TIER_1_BLOCKS - ctx.blockNumber else 0
      tier2BlocksRemaining :=
        if ctx.blockNumber < TIER_2_BLOCKS then TIER_2_BLOCKS - ctx.blockNumber else 0
      owner := 0 } := by
  simp [getStatus, lo1, hst, hhb, hdep, ht1, ht2, how]

/-- C10 witness: querying an untouched id 7 at block 100 reports the
partially elapsed countdowns from the zero heartbeat. -/
theorem getStatus_uninitialized_witness :
    getStatus s0 ⟨5, 100⟩ 7 = {
      currentStatus := 0
      lastHeartbeatBlock := 0
      currentBlock := 100
      totalDeposited := 0
      tier1Amount := 0
      tier2Amount := 0
      tier1BlocksRemaining := if 100 < TIER_1_BLOCKS then TIER_1_BLOCKS - 100 else 0
      tier2BlocksRemaining := if 100 < TIER_2_BLOCKS then TIER_2_BLOCKS - 100 else 0
      owner := 0 } :=
  getStatus_uninitialized s0 ⟨5, 100⟩ 7 rfl rfl rfl rfl rfl rfl

/-- Scratch state holding one active vault (id 1): owner 5, beneficiary 6,
heartbeat 100, a deposit of 1,000,000 with its 10%/90% split. -/
def sActive : ContractState := { s0 with
  vaultOwner := Function.update s0.vaultOwner 1 5
  vaultBeneficiary := Function.update s0.vaultBeneficiary 1 6
  vaultStatus := Function.update s0.vaultStatus 1 STATUS_ACTIVE
  vaultHeartbeat := Function.update s0.vaultHeartbeat 1 100
  vaultDeposited := Function.update s0.vaultDeposited 1 1000000
  vaultTier1Amt := Function.update s0.vaultTier1Amt 1 100000
  vaultTier2Amt := Function.update s0.vaultTier2Amt 1 900000
  nextVaultId := 2 }

/-- C3: elapsed time is `current - lastBeat` when the height has not gone
backwards and 0 otherwise; each reported countdown equals `T - elapsed`
below its threshold `T` and is exactly 0 at or beyond it; and a vault
queried at its creation block reports the full `TIER_1_BLOCKS` and
`TIER_2_BLOCKS` countdowns. -/
theorem countdown_spec :
    (∀ (ctx : Ctx) (lastBeat : Nat),
      (ctx.blockNumber < lastBeat → elapsedSince ctx lastBeat = 0) ∧
      (lastBeat ≤ ctx.blockNumber →
        elapsedSince ctx lastBeat = ctx.blockNumber - lastBeat)) ∧
    (∀ (s : ContractState) (ctx : Ctx) (vaultId : Nat),
      (elapsedSince ctx (lo1 (s.vaultHeartbeat vaultId)) < TIER_1_BLOCKS →
        (getStatus s ctx vaultId).tier1BlocksRemaining =
          TIER_1_BLOCKS - elapsedSince ctx (lo1 (s.vaultHeartbeat vaultId))) ∧
      (TIER_1_BLOCKS ≤ elapsedSince ctx (lo1 (s.vaultHeartbeat vaultId)) →
        (getStatus s ctx vaultId).tier1BlocksRemaining = 0) ∧
      (elapsedSince ctx (lo1 (s.vaultHeartbeat vaultId)) < TIER_2_BLOCKS →
        (getStatus s ctx vaultId).tier2BlocksRemaining =
          TIER_2_BLOCKS - elapsedSince ctx (lo1 (s.vaultHeartbeat vaultId))) ∧
      (TIER_2_BLOCKS ≤ elapsedSince ctx (lo1 (s.vaultHeartbeat vaultId)) →
        (getStatus s ctx vaultId).tier2BlocksRemaining = 0)) ∧
    (∀ (s : ContractState) (ctx : Ctx) (beneficiary : Nat),
      beneficiary ≠ 0 → beneficiary ≠ ctx.sender →
      s.nextVaultId + 1 < U256_LIMIT →
      s.ownerVaultCount ctx.sender + 1 < U256_LIMIT →
      s.totalVaults + 1 < U256_LIMIT →
      ctx.blockNumber < U64_LIMIT →
      (getStatus (applyOp s ctx (.createVault beneficiary)) ctx
        s.nextVaultId).tier1BlocksRemaining = TIER_1_BLOCKS ∧
      (getStatus (applyOp s ctx (.createVault beneficiary)) ctx
        s.nextVaultId).tier2BlocksRemaining = TIER_2_BLOCKS) := by
  refine ⟨fun ctx lastBeat => ⟨fun h => ?_, fun h => ?_⟩,
    fun s ctx vaultId => ?_, fun s ctx beneficiary hb0 hbo hnext hcnt htot hblk => ?_⟩
  · simp only [elapsedSince, ge_iff_le]
    split_ifs
    all_goals omega
  · simp only [elapsedSince, ge_iff_le]
    split_ifs
    all_goals omega
  · refine ⟨fun h => ?_, fun h => ?_, fun h => ?_, fun h => ?_⟩ <;>
      simp only [getStatus, elapsedSince, ge_iff_le, TIER_1_BLOCKS, TIER_2_BLOCKS] at h ⊢ <;>
      split_ifs at h ⊢ <;> omega
  · have hmod : ctx.blockNumber % U64_LIMIT = ctx.blockNumber := Nat.mod_eq_of_lt hblk
    simp [applyOp, step, createVault, safeAdd, hb0, hbo, hnext, hcnt, htot,
      Except.map, getStatus, lo1, hmod, TIER_1_BLOCKS, TIER_2_BLOCKS]

/-- C3 witness: a vault created at block 100 and queried at block 100
reports the full 26280 and 52560 block countdowns. -/
theorem countdown_spec_witness :
    (getStatus (applyOp s0 ⟨5, 100⟩ (.createVault 6)) ⟨5, 100⟩
      s0.nextVaultId).tier1BlocksRemaining = TIER_1_BLOCKS ∧
    (getStatus (applyOp s0 ⟨5, 100⟩ (.createVault 6)) ⟨5, 100⟩
      s0.nextVaultId).tier2BlocksRemaining = TIER_2_BLOCKS :=
  countdown_spec.2.2 s0 ⟨5, 100⟩ 6 (by decide) (by decide)
    (by norm_num [s0, onDeployment, U256_LIMIT])
    (by norm_num [s0, onDeployment, U256_LIMIT])
    (by norm_num [s0, onDeployment, U256_LIMIT])
    (by norm_num [U64_LIMIT])

/-- C4: `triggerTier2` succeeds only from `Tier1Released` with at least
`TIER_2_BLOCKS` elapsed and returns the stored tier-2 amount; on an
`Active` vault it fails with `InvalidState` regardless of elapsed time;
`triggerTier1` succeeds only from `Active` with at least `TIER_1_BLOCKS`
elapsed and returns the stored tier-1 amount. -/
theorem trigger_tier2_gating :
    (∀ (s : ContractState) (ctx : Ctx) (vaultId r : Nat) (s1 : ContractState),
      triggerTier2 s ctx vaultId = .ok (r, s1) →
      s.vaultStatus vaultId = STATUS_TIER1_RELEASED ∧
      TIER_2_BLOCKS ≤ elapsedSince ctx (lo1 (s.vaultHeartbeat vaultId)) ∧
      r = s.vaultTier2Amt vaultId ∧
      s1.vaultStatus vaultId = STATUS_FINALIZED) ∧
    (∀ (s : ContractState) (ctx : Ctx) (vaultId : Nat),
      s.vaultStatus vaultId = STATUS_ACTIVE →
      triggerTier2 s ctx vaultId = .error .InvalidState) ∧
    (∀ (s : ContractState) (ctx : Ctx) (vaultId r : Nat) (s1 : ContractState),
      triggerTier1 s ctx vaultId = .ok (r, s1) →
      s.vaultStatus vaultId = STATUS_ACTIVE ∧
      TIER_1_BLOCKS ≤ elapsedSince ctx (lo1 (s.vaultHeartbeat vaultId)) ∧
      r = s.vaultTier1Amt vaultId ∧
      s1.vaultStatus vaultId = STATUS_TIER1_RELEASED) := by
  refine ⟨fun s ctx vaultId r s1 h => ?_, fun s ctx vaultId hst => ?_,
    fun s ctx vaultId r s1 h => ?_⟩
  · by_cases hs : s.vaultStatus vaultId = STATUS_TIER1_RELEASED
    · by_cases hlt : elapsedSince ctx (lo1 (s.vaultHeartbeat vaultId)) < TIER_2_BLOCKS
      · simp [triggerTier2, requireVaultStatus, hs, hlt] at h
      · simp only [triggerTier2, requireVaultStatus, hs, ne_eq, not_true_eq_false,
          if_false, hlt, Except.ok.injEq, Prod.mk.injEq] at h
        obtain ⟨hr, hs1⟩ := h
        refine ⟨hs, by omega, hr.symm, ?_⟩
        rw [← hs1]
        simp
    · simp [triggerTier2, requireVaultStatus, hs] at h
  · simp [triggerTier2, requireVaultStatus, hst, STATUS_ACTIVE, STATUS_TIER1_RELEASED]
  · by_cases hs : s.vaultStatus vaultId = STATUS_ACTIVE
    · by_cases hlt : elapsedSince ctx (lo1 (s.vaultHeartbeat vaultId)) < TIER_1_BLOCKS
      · simp [triggerTier1, requireVaultStatus, hs, hlt] at h
      · simp only [triggerTier1, requireVaultStatus, hs, ne_eq, not_true_eq_false,
          if_false, hlt, Except.ok.injEq, Prod.mk.injEq] at h
        obtain ⟨hr, hs1⟩ := h
        refine ⟨hs, by omega, hr.symm, ?_⟩
        rw [← hs1]
        simp
    · simp [triggerTier1, requireVaultStatus, hs] at h

/-- C4 witness: on an `Active` vault whose heartbeat is long past both
thresholds, `triggerTier2` still fails with `InvalidState`. -/
theorem trigger_tier2_gating_witness :
    triggerTier2 sActive ⟨7, 999999⟩ 1 = .error .InvalidState :=
  trigger_tier2_gating.2.1 sActive ⟨7, 999999⟩ 1 (by decide)

/-- C9: the two trigger entry points never read the caller identity — for
any two senders at the same height they return the identical outcome
(success or failure, released amount, and resulting state) — while the
owner-gated operations fail with `NotOwner` for every caller other than
the stored owner. -/
theorem trigger_caller_agnostic :
    (∀ (s : ContractState) (a b n vaultId : Nat),
      triggerTier1 s ⟨a, n⟩ vaultId = triggerTier1 s ⟨b, n⟩ vaultId ∧
      triggerTier2 s ⟨a, n⟩ vaultId = triggerTier2 s ⟨b, n⟩ vaultId) ∧
    (∀ (s : ContractState) (ctx : Ctx) (vaultId amount newBeneficiary : Nat),
      ctx.sender ≠ s.vaultOwner vaultId →
      checkIn s ctx vaultId = .error .NotOwner ∧
      deposit s ctx vaultId amount = .error .NotOwner ∧
      setBeneficiary s ctx vaultId newBeneficiary = .error .NotOwner) := by
  refine ⟨fun s a b n vaultId => ⟨rfl, rfl⟩,
    fun s ctx vaultId amount newBeneficiary h => ?_⟩
  have h2 : s.vaultOwner vaultId ≠ ctx.sender := fun e => h e.symm
  refine ⟨?_, ?_, ?_⟩ <;> simp [checkIn, deposit, setBeneficiary, requireVaultOwner, h2]

/-- C9 witness: a non-owner caller gets `NotOwner` from each owner-gated
operation on the concrete active vault. -/
theorem trigger_caller_agnostic_witness :
    checkIn sActive ⟨7, 200⟩ 1 = .error .NotOwner ∧
    deposit sActive ⟨7, 200⟩ 1 5 = .error .NotOwner ∧
    setBeneficiary sActive ⟨7, 200⟩ 1 3 = .error .NotOwner :=
  trigger_caller_agnostic.2 sActive ⟨7, 200⟩ 1 5 3 (by decide)

/-- A `checkIn` call either reverts (leaving the state) or, when the caller
owns the vault and it is `Active`, only rewrites its heartbeat. -/
lemma applyOp_checkIn (s : ContractState) (ctx : Ctx) (v0 : Nat) :
    applyOp s ctx (.checkIn v0) = s ∨
    (s.vaultOwner v0 = ctx.sender ∧ s.vaultStatus v0 = STATUS_ACTIVE ∧
      applyOp s ctx (.checkIn v0) =
        { s with vaultHeartbeat := Function.update s.vaultHeartbeat v0 ctx.blockNumber }) := by
  by_cases h1 : s.vaultOwner v0 = ctx.sender
  · by_cases h2 : s.vaultStatus v0 = STATUS_ACTIVE
    · exact Or.inr ⟨h1, h2, by
        simp [applyOp, step, checkIn, requireVaultOwner, requireVaultStatus, h1, h2,
          Except.map]⟩
    · exact Or.inl (by
        simp [applyOp, step, checkIn, requireVaultOwner, requireVaultStatus, h1, h2,
          Except.map])
  · exact Or.inl (by
      simp [applyOp, step, checkIn, requireVaultOwner, h1, Except.map])

/-- A `deposit` call either reverts or, when all guards pass, only rewrites
the cumulative total and the two recomputed tier amounts. -/
lemma applyOp_deposit (s : ContractState) (ctx : Ctx) (v0 amt : Nat) :
    applyOp s ctx (.deposit v0 amt) = s ∨
    (s.vaultOwner v0 = ctx.sender ∧ s.vaultStatus v0 = STATUS_ACTIVE ∧ 0 < amt ∧
      applyOp s ctx (.deposit v0 amt) = { s with
        vaultDeposited := Function.update s.vaultDeposited v0 (s.vaultDeposited v0 + amt)
        vaultTier1Amt := Function.update s.vaultTier1Amt v0
          ((s.vaultDeposited v0 + amt) * TIER_1_BPS / BPS_DENOMINATOR)
        vaultTier2Amt := Function.update s.vaultTier2Amt v0
          ((s.vaultDeposited v0 + amt) -
            (s.vaultDeposited v0 + amt) * TIER_1_BPS / BPS_DENOMINATOR) }) := by
  by_cases h1 : s.vaultOwner v0 = ctx.sender
  · by_cases h2 : s.vaultStatus v0 = STATUS_ACTIVE
    · by_cases h3 : amt = 0
      · exact Or.inl (by
          simp [applyOp, step, deposit, requireVaultOwner, requireVaultStatus, h1, h2, h3,
            Except.map])
      · by_cases h4 : s.vaultDeposited v0 + amt < U256_LIMIT
        · by_cases h5 : (s.vaultDeposited v0 + amt) * TIER_1_BPS < U256_LIMIT
          · have hrc := recalcTiers_ok
              { s with vaultDeposited :=
                  Function.update s.vaultDeposited v0 (s.vaultDeposited v0 + amt) }
              v0 (s.vaultDeposited v0 + amt) h5
            exact Or.inr ⟨h1, h2, Nat.pos_of_ne_zero h3, by
              simp [applyOp, step, deposit, requireVaultOwner, requireVaultStatus, h1, h2,
                h3, safeAdd, h4, hrc, Except.map]⟩
          · exact Or.inl (by
              simp [applyOp, step, deposit, requireVaultOwner, requireVaultStatus, h1, h2,
                h3, safeAdd, h4, recalcTiers, safeMul, h5, Except.map])
        · exact Or.inl (by
            simp [applyOp, step, deposit, requireVaultOwner, requireVaultStatus, h1, h2,
              h3, safeAdd, h4, Except.map])
    · exact Or.inl (by
        simp [applyOp, step, deposit, requireVaultOwner, requireVaultStatus, h1, h2,
          Except.map])
  · exact Or.inl (by
      simp [applyOp, step, deposit, requireVaultOwner, h1, Except.map])

/-- A `setBeneficiary` call either reverts or only rewrites the vault's
beneficiary. -/
lemma applyOp_setBeneficiary (s : ContractState) (ctx : Ctx) (v0 b : Nat) :
    applyOp s ctx (.setBeneficiary v0 b) = s ∨
    (s.vaultOwner v0 = ctx.sender ∧ s.vaultStatus v0 = STATUS_ACTIVE ∧
      applyOp s ctx (.setBeneficiary v0 b) =
        { s with vaultBeneficiary := Function.update s.vaultBeneficiary v0 b }) := by
  by_cases h1 : s.vaultOwner v0 = ctx.sender
  · by_cases h2 : s.vaultStatus v0 = STATUS_ACTIVE
    · by_cases h3 : b = 0
      · exact Or.inl (by
          simp [applyOp, step, setBeneficiary, requireVaultOwner, requireVaultStatus,
            h1, h2, h3, Except.map])
      · by_cases h4 : b = s.vaultOwner v0
        · exact Or.inl (by
            simp [applyOp, step, setBeneficiary, requireVaultOwner, requireVaultStatus,
              h1, h2, h3, h4, Except.map])
        · have h4c : ¬b = ctx.sender := by
            rw [← h1]
            exact h4
          exact Or.inr ⟨h1, h2, by
            simp [applyOp, step, setBeneficiary, requireVaultOwner, requireVaultStatus,
              h1, h2, h3, h4, h4c, Except.map]⟩
    · exact Or.inl (by
        simp [applyOp, step, setBeneficiary, requireVaultOwner, requireVaultStatus,
          h1, h2, Except.map])
  · exact Or.inl (by
      simp [applyOp, step, setBeneficiary, requireVaultOwner, h1, Except.map])

/-- A `triggerTier1` call either reverts or, from `Active` with the tier-1
threshold elapsed, only advances the status to `Tier1Released`. -/
lemma applyOp_triggerTier1 (s : ContractState) (ctx : Ctx) (v0 : Nat) :
    applyOp s ctx (.triggerTier1 v0) = s ∨
    (s.vaultStatus v0 = STATUS_ACTIVE ∧
      TIER_1_BLOCKS ≤ elapsedSince ctx (lo1 (s.vaultHeartbeat v0)) ∧
      applyOp s ctx (.triggerTier1 v0) =
        { s with vaultStatus := Function.update s.vaultStatus v0 STATUS_TIER1_RELEASED }) := by
  by_cases h1 : s.vaultStatus v0 = STATUS_ACTIVE
  · by_cases h2 : elapsedSince ctx (lo1 (s.vaultHeartbeat v0)) < TIER_1_BLOCKS
    · exact Or.inl (by
        simp [applyOp, step, triggerTier1, requireVaultStatus, h1, h2, Except.map])
    · exact Or.inr ⟨h1, by omega, by
        simp [applyOp, step, triggerTier1, requireVaultStatus, h1, h2, Except.map]⟩
  · exact Or.inl (by
      simp [applyOp, step, triggerTier1, requireVaultStatus, h1, Except.map])

/-- A `triggerTier2` call either reverts or, from `Tier1Released` with the
tier-2 threshold elapsed, only advances the status to `Finalized`. -/
lemma applyOp_triggerTier2 (s : ContractState) (ctx : Ctx) (v0 : Nat) :
    applyOp s ctx (.triggerTier2 v0) = s ∨
    (s.vaultStatus v0 = STATUS_TIER1_RELEASED ∧
      TIER_2_BLOCKS ≤ elapsedSince ctx (lo1 (s.vaultHeartbeat v0)) ∧
      applyOp s ctx (.triggerTier2 v0) =
        { s with vaultStatus := Function.update s.vaultStatus v0 STATUS_FINALIZED }) := by
  by_cases h1 : s.vaultStatus v0 = STATUS_TIER1_RELEASED
  · by_cases h2 : elapsedSince ctx (lo1 (s.vaultHeartbeat v0)) < TIER_2_BLOCKS
    · exact Or.inl (by
        simp [applyOp, step, triggerTier2, requireVaultStatus, h1, h2, Except.map])
    · exact Or.inr ⟨h1, by omega, by
        simp [applyOp, step, triggerTier2, requireVaultStatus, h1, h2, Except.map]⟩
  · exact Or.inl (by
      simp [applyOp, step, triggerTier2, requireVaultStatus, h1, Except.map])

/-- A `createVault` call either reverts or initialises the vault record at
the freshly allocated id `s.nextVaultId`. -/
lemma applyOp_createVault (s : ContractState) (ctx : Ctx) (b : Nat) :
    applyOp s ctx (.createVault b) = s ∨
    applyOp s ctx (.createVault b) = { s with
      nextVaultId := s.nextVaultId + 1
      vaultOwner := Function.update s.vaultOwner s.nextVaultId ctx.sender
      vaultBeneficiary := Function.update s.vaultBeneficiary s.nextVaultId b
      vaultStatus := Function.update s.vaultStatus s.nextVaultId STATUS_ACTIVE
      vaultHeartbeat := Function.update s.vaultHeartbeat s.nextVaultId ctx.blockNumber
      vaultDeposited := Function.update s.vaultDeposited s.nextVaultId 0
      vaultTier1Amt := Function.update s.vaultTier1Amt s.nextVaultId 0
      vaultTier2Amt := Function.update s.vaultTier2Amt s.nextVaultId 0
      ownerVaults := Function.update s.ownerVaults ctx.sender
        (Function.update (s.ownerVaults ctx.sender) (s.ownerVaultCount ctx.sender)
          s.nextVaultId)
      ownerVaultCount := Function.update s.ownerVaultCount ctx.sender
        (s.ownerVaultCount ctx.sender + 1)
      totalVaults := s.totalVaults + 1 } := by
  by_cases h1 : b = 0
  · exact Or.inl (by simp [applyOp, step, createVault, h1, Except.map])
  · by_cases h2 : b = ctx.sender
    · exact Or.inl (by simp [applyOp, step, createVault, h1, h2, Except.map])
    · by_cases h3 : s.nextVaultId + 1 < U256_LIMIT
      · by_cases h4 : s.ownerVaultCount ctx.sender + 1 < U256_LIMIT
        · by_cases h5 : s.totalVaults + 1 < U256_LIMIT
          · exact Or.inr (by
              simp [applyOp, step, createVault, h1, h2, safeAdd, h3, h4, h5, Except.map])
          · exact Or.inl (by
              simp [applyOp, step, createVault, h1, h2, safeAdd, h3, h4, h5, Except.map])
        · exact Or.inl (by
            simp [applyOp, step, createVault, h1, h2, safeAdd, h3, h4, Except.map])
      · exact Or.inl (by
          simp [applyOp, step, createVault, h1, h2, safeAdd, h3, Except.map])

/-- C2: when a deposit succeeds (owner call on an `Active` vault, positive
amount, SafeMath guards met) the cumulative total strictly increases and
neither materialized tier amount decreases; the split stays consistent with
the new total. -/
theorem deposit_monotone (s : ContractState) (ctx : Ctx) (vaultId amount : Nat)
    (hown : s.vaultOwner vaultId = ctx.sender)
    (hst : s.vaultStatus vaultId = STATUS_ACTIVE)
    (hpos : 0 < amount)
    (hov : s.vaultDeposited vaultId + amount < U256_LIMIT)
    (hov2 : (s.vaultDeposited vaultId + amount) * TIER_1_BPS < U256_LIMIT)
    (ht1 : s.vaultTier1Amt vaultId =
      s.vaultDeposited vaultId * TIER_1_BPS / BPS_DENOMINATOR)
    (ht2 : s.vaultTier2Amt vaultId =
      s.vaultDeposited vaultId -
        s.vaultDeposited vaultId * TIER_1_BPS / BPS_DENOMINATOR) :
    s.vaultDeposited vaultId <
      (applyOp s ctx (.deposit vaultId amount)).vaultDeposited vaultId ∧
    s.vaultTier1Amt vaultId ≤
      (applyOp s ctx (.deposit vaultId amount)).vaultTier1Amt vaultId ∧
    s.vaultTier2Amt vaultId ≤
      (applyOp s ctx (.deposit vaultId amount)).vaultTier2Amt vaultId ∧
    (applyOp s ctx (.deposit vaultId amount)).vaultTier1Amt vaultId =
      (applyOp s ctx (.deposit vaultId amount)).vaultDeposited vaultId *
        TIER_1_BPS / BPS_DENOMINATOR ∧
    (applyOp s ctx (.deposit vaultId amount)).vaultTier2Amt vaultId =
      (applyOp s ctx (.deposit vaultId amount)).vaultDeposited vaultId -
        (applyOp s ctx (.deposit vaultId amount)).vaultDeposited vaultId *
          TIER_1_BPS / BPS_DENOMINATOR := by
  have hamt : amount ≠ 0 := Nat.pos_iff_ne_zero.mp hpos
  have hrc := recalcTiers_ok
    { s with vaultDeposited :=
        Function.update s.vaultDeposited vaultId (s.vaultDeposited vaultId + amount) }
    vaultId (s.vaultDeposited vaultId + amount) hov2
  have happ : applyOp s ctx (.deposit vaultId amount) = { s with
      vaultDeposited :=
        Function.update s.vaultDeposited vaultId (s.vaultDeposited vaultId + amount)
      vaultTier1Amt := Function.update s.vaultTier1Amt vaultId
        ((s.vaultDeposited vaultId + amount) * TIER_1_BPS / BPS_DENOMINATOR)
      vaultTier2Amt := Function.update s.vaultTier2Amt vaultId
        ((s.vaultDeposited vaultId + amount) -
          (s.vaultDeposited vaultId + amount) * TIER_1_BPS / BPS_DENOMINATOR) } := by
    simp [applyOp, step, deposit, requireVaultOwner, requireVaultStatus, hown, hst,
      hamt, safeAdd, hov, hrc, Except.map]
  rw [happ]
  refine ⟨?_, ?_, ?_, ?_, ?_⟩
  · simp only [Function.update_same]
    omega
  · simp only [Function.update_same]
    rw [ht1]
    exact tier1_mono (Nat.le_add_right _ _)
  · simp only [Function.update_same]
    rw [ht2]
    exact tier2_mono (Nat.le_add_right _ _)
  · simp only [Function.update_same]
  · simp only [Function.update_same]

/-- C2 witness: depositing 10 more into the concrete active vault grows the
total and both tier amounts stay consistent and non-decreasing. -/
theorem deposit_monotone_witness :
    sActive.vaultDeposited 1 <
      (applyOp sActive ⟨5, 200⟩ (.deposit 1 10)).vaultDeposited 1 ∧
    sActive.vaultTier1Amt 1 ≤
      (applyOp sActive ⟨5, 200⟩ (.deposit 1 10)).vaultTier1Amt 1 ∧
    sActive.vaultTier2Amt 1 ≤
      (applyOp sActive ⟨5, 200⟩ (.deposit 1 10)).vaultTier2Amt 1 ∧
    (applyOp sActive ⟨5, 200⟩ (.deposit 1 10)).vaultTier1Amt 1 =
      (applyOp sActive ⟨5, 200⟩ (.deposit 1 10)).vaultDeposited 1 *
        TIER_1_BPS / BPS_DENOMINATOR ∧
    (applyOp sActive ⟨5, 200⟩ (.deposit 1 10)).vaultTier2Amt 1 =
      (applyOp sActive ⟨5, 200⟩ (.deposit 1 10)).vaultDeposited 1 -
        (applyOp sActive ⟨5, 200⟩ (.deposit 1 10)).vaultDeposited 1 *
          TIER_1_BPS / BPS_DENOMINATOR :=
  deposit_monotone sActive ⟨5, 200⟩ 1 10 rfl rfl (by decide)
    (by norm_num [sActive, s0, onDeployment, U256_LIMIT])
    (by norm_num [sActive, s0, onDeployment, TIER_1_BPS, U256_LIMIT])
    (by norm_num [sActive, s0, onDeployment, TIER_1_BPS, BPS_DENOMINATOR])
    (by norm_num [sActive, s0, onDeployment, TIER_1_BPS, BPS_DENOMINATOR])

/-- Scratch state: the active vault of `sActive` moved to `Finalized`. -/
def sFinal : ContractState := { sActive with
  vaultStatus := Function.update sActive.vaultStatus 1 STATUS_FINALIZED }

/-- C5 counterexample: on a concrete `Finalized` vault (owner 5), a call of
`checkIn` by the non-owner caller 7 fails with `NotOwner`, not
`InvalidState` — the owner guard runs before the status guard — refuting
"every mutating operation by any caller fails with InvalidState". -/
theorem finalized_invalidstate_cex :
    checkIn sFinal ⟨7, 200⟩ 1 = .error .NotOwner ∧ Err.NotOwner ≠ Err.InvalidState :=
  ⟨rfl, by decide⟩

/-- C5 amended: on a `Finalized` vault every mutating operation fails and
leaves the state unchanged; the error is `InvalidState` whenever the status
guard is reached — for the two triggers with any caller, and for the
owner-gated operations when the caller is the owner — while a non-owner
caller on an owner-gated operation gets `NotOwner` first; in all cases (and
for every erroring call on any state) no field is mutated. -/
theorem finalized_terminal (s : ContractState) (vaultId : Nat)
    (hfin : s.vaultStatus vaultId = STATUS_FINALIZED) :
    (∀ ctx : Ctx, ctx.sender = s.vaultOwner vaultId →
      checkIn s ctx vaultId = .error .InvalidState ∧
      (∀ amount, deposit s ctx vaultId amount = .error .InvalidState) ∧
      (∀ b, setBeneficiary s ctx vaultId b = .error .InvalidState)) ∧
    (∀ ctx : Ctx,
      triggerTier1 s ctx vaultId = .error .InvalidState ∧
      triggerTier2 s ctx vaultId = .error .InvalidState) ∧
    (∀ (ctx : Ctx) (op : Op), targetVault op = some vaultId → applyOp s ctx op = s) ∧
    (∀ (t : ContractState) (ctx : Ctx) (op : Op) (e : Err),
      step t ctx op = .error e → applyOp t ctx op = t) := by
  refine ⟨fun ctx hco => ?_, fun ctx => ?_, fun ctx op hop => ?_,
    fun t ctx op e h => by simp [applyOp, h]⟩
  · have hown : s.vaultOwner vaultId = ctx.sender := hco.symm
    refine ⟨?_, fun amount => ?_, fun b => ?_⟩ <;>
      simp [checkIn, deposit, setBeneficiary, requireVaultOwner, requireVaultStatus,
        hown, hfin, STATUS_FINALIZED, STATUS_ACTIVE]
  · constructor <;>
      simp [triggerTier1, triggerTier2, requireVaultStatus, hfin,
        STATUS_FINALIZED, STATUS_ACTIVE, STATUS_TIER1_RELEASED]
  · cases op with
    | createVault b => simp [targetVault] at hop
    | checkIn v0 =>
      simp only [targetVault, Option.some.injEq] at hop
      subst hop
      rcases applyOp_checkIn s ctx v0 with h | ⟨_, h2, _⟩
      · exact h
      · exact absurd (hfin.symm.trans h2) (by decide)
    | deposit v0 amt =>
      simp only [targetVault, Option.some.injEq] at hop
      subst hop
      rcases applyOp_deposit s ctx v0 amt with h | ⟨_, h2, _, _⟩
      · exact h
      · exact absurd (hfin.symm.trans h2) (by decide)
    | setBeneficiary v0 b =>
      simp only [targetVault, Option.some.injEq] at hop
      subst hop
      rcases applyOp_setBeneficiary s ctx v0 b with h | ⟨_, h2, _⟩
      · exact h
      · exact absurd (hfin.symm.trans h2) (by decide)
    | triggerTier1 v0 =>
      simp only [targetVault, Option.some.injEq] at hop
      subst hop
      rcases applyOp_triggerTier1 s ctx v0 with h | ⟨h2, _, _⟩
      · exact h
      · exact absurd (hfin.symm.trans h2) (by decide)
    | triggerTier2 v0 =>
      simp only [targetVault, Option.some.injEq] at hop
      subst hop
      rcases applyOp_triggerTier2 s ctx v0 with h | ⟨h2, _, _⟩
      · exact h
      · exact absurd (hfin.symm.trans h2) (by decide)

/-- C5 witness: concrete `Finalized`-vault calls — the owner's `checkIn`
and `deposit` and anyone's `triggerTier2` all fail with `InvalidState`. -/
theorem finalized_terminal_witness :
    checkIn sFinal ⟨5, 300⟩ 1 = .error .InvalidState ∧
    deposit sFinal ⟨5, 300⟩ 1 42 = .error .InvalidState ∧
    triggerTier2 sFinal ⟨9, 999999⟩ 1 = .error .InvalidState :=
  ⟨((finalized_terminal sFinal 1 rfl).1 ⟨5, 300⟩ rfl).1,
   ((finalized_terminal sFinal 1 rfl).1 ⟨5, 300⟩ rfl).2.1 42,
   ((finalized_terminal sFinal 1 rfl).2.1 ⟨9, 999999⟩).2⟩

/-- C6: under the allocator invariant (every id at or beyond `nextVaultId`
is still `Uninitialized`), a single call never moves any vault's status
backward: the status either stays, or takes one of the three forward steps
`Uninitialized → Active` (create), `Active → Tier1Released` (trigger 1),
`Tier1Released → Finalized` (trigger 2); the allocator invariant is
preserved, so `Finalized` is never reached without passing through
`Tier1Released`. -/
theorem status_forward (s : ContractState) (ctx : Ctx) (op : Op)
    (hInv : ∀ v, s.nextVaultId ≤ v → s.vaultStatus v = STATUS_UNINITIALIZED) :
    (∀ v, s.vaultStatus v ≤ (applyOp s ctx op).vaultStatus v) ∧
    (∀ v, (applyOp s ctx op).vaultStatus v = s.vaultStatus v ∨
      (s.vaultStatus v = STATUS_UNINITIALIZED ∧
        (applyOp s ctx op).vaultStatus v = STATUS_ACTIVE) ∨
      (s.vaultStatus v = STATUS_ACTIVE ∧
        (applyOp s ctx op).vaultStatus v = STATUS_TIER1_RELEASED) ∨
      (s.vaultStatus v = STATUS_TIER1_RELEASED ∧
        (applyOp s ctx op).vaultStatus v = STATUS_FINALIZED)) ∧
    (∀ v, (applyOp s ctx op).nextVaultId ≤ v →
      (applyOp s ctx op).vaultStatus v = STATUS_UNINITIALIZED) := by
  have main : (∀ v, (applyOp s ctx op).vaultStatus v = s.vaultStatus v ∨
      (s.vaultStatus v = STATUS_UNINITIALIZED ∧
        (applyOp s ctx op).vaultStatus v = STATUS_ACTIVE) ∨
      (s.vaultStatus v = STATUS_ACTIVE ∧
        (applyOp s ctx op).vaultStatus v = STATUS_TIER1_RELEASED) ∨
      (s.vaultStatus v = STATUS_TIER1_RELEASED ∧
        (applyOp s ctx op).vaultStatus v = STATUS_FINALIZED)) ∧
      (∀ v, (applyOp s ctx op).nextVaultId ≤ v →
        (applyOp s ctx op).vaultStatus v = STATUS_UNINITIALIZED) := by
    cases op with
    | createVault b =>
      rcases applyOp_createVault s ctx b with h | h
      · rw [h]
        exact ⟨fun v => Or.inl rfl, hInv⟩
      · constructor
        · intro v
          by_cases hv : v = s.nextVaultId
          · subst hv
            refine Or.inr (Or.inl ⟨hInv _ le_rfl, ?_⟩)
            rw [h]
            simp
          · refine Or.inl ?_
            rw [h]
            simp [Function.update_noteq hv]
        · intro v hv
          have hv2 : s.nextVaultId + 1 ≤ v := by
            rw [h] at hv
            exact hv
          have hne : v ≠ s.nextVaultId := by omega
          rw [h]
          simpa [Function.update_noteq hne] using hInv v (by omega)
    | checkIn v0 =>
      rcases applyOp_checkIn s ctx v0 with h | ⟨_, _, h⟩ <;> rw [h] <;>
        exact ⟨fun v => Or.inl rfl, hInv⟩
    | deposit v0 amt =>
      rcases applyOp_deposit s ctx v0 amt with h | ⟨_, _, _, h⟩ <;> rw [h] <;>
        exact ⟨fun v => Or.inl rfl, hInv⟩
    | setBeneficiary v0 b =>
      rcases applyOp_setBeneficiary s ctx v0 b with h | ⟨_, _, h⟩ <;> rw [h] <;>
        exact ⟨fun v => Or.inl rfl, hInv⟩
    | triggerTier1 v0 =>
      rcases applyOp_triggerTier1 s ctx v0 with h | ⟨hst, _, h⟩
      · rw [h]
        exact ⟨fun v => Or.inl rfl, hInv⟩
      · constructor
        · intro v
          by_cases hv : v = v0
          · subst hv
            refine Or.inr (Or.inr (Or.inl ⟨hst, ?_⟩))
            rw [h]
            simp
          · refine Or.inl ?_
            rw [h]
            simp [Function.update_noteq hv]
        · intro v hv
          rw [h] at hv
          have hv2 : s.nextVaultId ≤ v := hv
          have hne : v ≠ v0 := by
            intro e
            subst e
            exact absurd ((hInv v hv2).symm.trans hst) (by decide)
          rw [h]
          simpa [Function.update_noteq hne] using hInv v hv2
    | triggerTier2 v0 =>
      rcases applyOp_triggerTier2 s ctx v0 with h | ⟨hst, _, h⟩
      · rw [h]
        exact ⟨fun v => Or.inl rfl, hInv⟩
      · constructor
        · intro v
          by_cases hv : v = v0
          · subst hv
            refine Or.inr (Or.inr (Or.inr ⟨hst, ?_⟩))
            rw [h]
            simp
          · refine Or.inl ?_
            rw [h]
            simp [Function.update_noteq hv]
        · intro v hv
          rw [h] at hv
          have hv2 : s.nextVaultId ≤ v := hv
          have hne : v ≠ v0 := by
            intro e
            subst e
            exact absurd ((hInv v hv2).symm.trans hst) (by decide)
          rw [h]
          simpa [Function.update_noteq hne] using hInv v hv2
  refine ⟨fun v => ?_, main.1, main.2⟩
  rcases main.1 v with h | ⟨h1, h2⟩ | ⟨h1, h2⟩ | ⟨h1, h2⟩
  · simp [h]
  · simp only [h1, h2, STATUS_UNINITIALIZED, STATUS_ACTIVE]
    omega
  · simp only [h1, h2, STATUS_ACTIVE, STATUS_TIER1_RELEASED]
    omega
  · simp only [h1, h2, STATUS_TIER1_RELEASED, STATUS_FINALIZED]
    omega

/-- C6 witness: firing tier 1 on the concrete active vault does not lower
its status. -/
theorem status_forward_witness :
    sActive.vaultStatus 1 ≤ (applyOp sActive ⟨7, 27000⟩ (.triggerTier1 1)).vaultStatus 1 :=
  (status_forward sActive ⟨7, 27000⟩ (.triggerTier1 1)
    (fun v hv => by
      have hv2 : (2 : Nat) ≤ v := hv
      have hne : v ≠ 1 := by omega
      show sActive.vaultStatus v = STATUS_UNINITIALIZED
      simp [sActive, s0, onDeployment, Function.update_noteq hne,
        STATUS_UNINITIALIZED])).1 1

/-- C7: `lastHeartbeat` is written only by `createVault` (to the creation
block, at the freshly allocated id) and by a successful owner `checkIn`
while `Active` (to the current block); `deposit`, `setBeneficiary`,
`triggerTier1` and `triggerTier2` never modify any vault's heartbeat, so
tier-2 eligibility is measured from the same checkpoint as tier-1. -/
theorem heartbeat_frame (s : ContractState) (ctx : Ctx) :
    (∀ vid, (applyOp s ctx (.triggerTier1 vid)).vaultHeartbeat = s.vaultHeartbeat) ∧
    (∀ vid, (applyOp s ctx (.triggerTier2 vid)).vaultHeartbeat = s.vaultHeartbeat) ∧
    (∀ vid amt, (applyOp s ctx (.deposit vid amt)).vaultHeartbeat = s.vaultHeartbeat) ∧
    (∀ vid b, (applyOp s ctx (.setBeneficiary vid b)).vaultHeartbeat = s.vaultHeartbeat) ∧
    (∀ vid, (applyOp s ctx (.checkIn vid)).vaultHeartbeat = s.vaultHeartbeat ∨
      (s.vaultStatus vid = STATUS_ACTIVE ∧ s.vaultOwner vid = ctx.sender ∧
        (applyOp s ctx (.checkIn vid)).vaultHeartbeat =
          Function.update s.vaultHeartbeat vid ctx.blockNumber)) ∧
    (∀ b, (applyOp s ctx (.createVault b)).vaultHeartbeat = s.vaultHeartbeat ∨
      (applyOp s ctx (.createVault b)).vaultHeartbeat =
        Function.update s.vaultHeartbeat s.nextVaultId ctx.blockNumber) := by
  refine ⟨fun vid => ?_, fun vid => ?_, fun vid amt => ?_, fun vid b => ?_,
    fun vid => ?_, fun b => ?_⟩
  · rcases applyOp_triggerTier1 s ctx vid with h | ⟨_, _, h⟩ <;> rw [h]
  · rcases applyOp_triggerTier2 s ctx vid with h | ⟨_, _, h⟩ <;> rw [h]
  · rcases applyOp_deposit s ctx vid amt with h | ⟨_, _, _, h⟩ <;> rw [h]
  · rcases applyOp_setBeneficiary s ctx vid b with h | ⟨_, _, h⟩ <;> rw [h]
  · rcases applyOp_checkIn s ctx vid with h | ⟨h1, h2, h⟩
    · exact Or.inl (by rw [h])
    · exact Or.inr ⟨h2, h1, by rw [h]⟩
  · rcases applyOp_createVault s ctx b with h | h
    · exact Or.inl (by rw [h])
    · exact Or.inr (by rw [h])

/-- C8: any vault-addressed operation (`checkIn`, `deposit`,
`setBeneficiary`, `triggerTier1`, `triggerTier2`) on vault `A` leaves every
stored field of any other vault `B ≠ A` unchanged, whether the call
succeeds or reverts. -/
theorem vault_isolation (s : ContractState) (ctx : Ctx) (op : Op) (A B : Nat)
    (htgt : targetVault op = some A) (hne : B ≠ A) :
    (applyOp s ctx op).vaultOwner B = s.vaultOwner B ∧
    (applyOp s ctx op).vaultBeneficiary B = s.vaultBeneficiary B ∧
    (applyOp s ctx op).vaultStatus B = s.vaultStatus B ∧
    (applyOp s ctx op).vaultHeartbeat B = s.vaultHeartbeat B ∧
    (applyOp s ctx op).vaultDeposited B = s.vaultDeposited B ∧
    (applyOp s ctx op).vaultTier1Amt B = s.vaultTier1Amt B ∧
    (applyOp s ctx op).vaultTier2Amt B = s.vaultTier2Amt B := by
  cases op with
  | createVault b => simp [targetVault] at htgt
  | checkIn v0 =>
    simp only [targetVault, Option.some.injEq] at htgt
    subst htgt
    rcases applyOp_checkIn s ctx v0 with h | ⟨_, _, h⟩ <;> rw [h] <;>
      simp [Function.update_noteq hne]
  | deposit v0 amt =>
    simp only [targetVault, Option.some.injEq] at htgt
    subst htgt
    rcases applyOp_deposit s ctx v0 amt with h | ⟨_, _, _, h⟩ <;> rw [h] <;>
      simp [Function.update_noteq hne]
  | setBeneficiary v0 b =>
    simp only [targetVault, Option.some.injEq] at htgt
    subst htgt
    rcases applyOp_setBeneficiary s ctx v0 b with h | ⟨_, _, h⟩ <;> rw [h] <;>
      simp [Function.update_noteq hne]
  | triggerTier1 v0 =>
    simp only [targetVault, Option.some.injEq] at htgt
    subst htgt
    rcases applyOp_triggerTier1 s ctx v0 with h | ⟨_, _, h⟩ <;> rw [h] <;>
      simp [Function.update_noteq hne]
  | triggerTier2 v0 =>
    simp only [targetVault, Option.some.injEq] at htgt
    subst htgt
    rcases applyOp_triggerTier2 s ctx v0 with h | ⟨_, _, h⟩ <;> rw [h] <;>
      simp [Function.update_noteq hne]

/-- C8 witness: an owner `checkIn` on vault 1 leaves every field of vault 2
unchanged. -/
theorem vault_isolation_witness :
    (applyOp sActive ⟨5, 200⟩ (.checkIn 1)).vaultOwner 2 = sActive.vaultOwner 2 ∧
    (applyOp sActive ⟨5, 200⟩ (.checkIn 1)).vaultBeneficiary 2 =
      sActive.vaultBeneficiary 2 ∧
    (applyOp sActive ⟨5, 200⟩ (.checkIn 1)).vaultStatus 2 = sActive.vaultStatus 2 ∧
    (applyOp sActive ⟨5, 200⟩ (.checkIn 1)).vaultHeartbeat 2 = sActive.vaultHeartbeat 2 ∧
    (applyOp sActive ⟨5, 200⟩ (.checkIn 1)).vaultDeposited 2 = sActive.vaultDeposited 2 ∧
    (applyOp sActive ⟨5, 200⟩ (.checkIn 1)).vaultTier1Amt 2 = sActive.vaultTier1Amt 2 ∧
    (applyOp sActive ⟨5, 200⟩ (.checkIn 1)).vaultTier2Amt 2 = sActive.vaultTier2Amt 2 :=
  vault_isolation sActive ⟨5, 200⟩ (.checkIn 1) 1 2 rfl (by decide)

end EternalSentinel
